import Mathlib

set_option maxHeartbeats 1000000

namespace TypedPdf

/-- Model of Rust `f32` payloads.  The classifier only moves numeric values
around and compares them with the small literals `1.0` and `0.0`, never
performing arithmetic, so the carrier is modelled as a rational number and the
Rust widening `i as f32` becomes the exact coercion `Int → Rat`. -/
abbrev F32 := Rat

/-- Shallow embedding of `pdf::primitive::Primitive`, the loosely typed operand
values.  A PDF byte string is a byte list; a name is text.  Dictionaries,
streams and references are never inspected by the classifier, so their payloads
are omitted. -/
inductive Primitive where
  | null : Primitive
  | boolean : Bool → Primitive
  | integer : Int → Primitive
  | number : F32 → Primitive
  | name : String → Primitive
  | string : List Nat → Primitive
  | array : List Primitive → Primitive
  | dictionary : Primitive
  | stream : Primitive
  | reference : Primitive


/-- `impl PrimitiveExt for Primitive { fn try_to_f(&self) -> Option<f32> }`. -/
def Primitive.try_to_f : Primitive → Option F32
  | .integer i => some (i : F32)
  | .number f => some f
  | _ => none

inductive LineCapStyle where
  | ButtCap | RoundCap | ProjectingSquareCap


inductive LineJoinStyle where
  | MiterJoin | RoundJoin | BevelJoin


inductive TextRenderingMode where
  | FillText | StrokeText | FillThenStrokeText | Invisible
  | FillTextAndAddToPathForClipping | StrokeTextAndAddToPathForClipping
  | FillThenStrokeTextAndAddToPathForClipping | AddTextToPathForClipping


inductive TextOrGlyphPositioning where
  | Text : String → TextOrGlyphPositioning
  | GlyphPositioning : F32 → TextOrGlyphPositioning


inductive UntypedColor where
  | DeviceGrayCalGrayOrIndexed : F32 → UntypedColor
  | DeviceRGBCalRGBOrLab : F32 → F32 → F32 → UntypedColor
  | DeviceCMYK : F32 → F32 → F32 → F32 → UntypedColor


inductive ColorRenderingIntent where
  | AbsoluteColorimetric | RelativeColorimetric | Saturation | Perceptual


/-- Shallow embedding of the Rust enum `Operation`.  Borrowed name and text
fields become `String`; `Unknown` keeps the original operator
name and the original operand slice. -/
inductive Operation where
  | CloseFillAndStrokePathUsingNonZeroWindingNumber
  | FillAndStrokePathUsingNonZeroWindingNumber
  | CloseFillAndStrokePathUsingEvenOddRule
  | FillAndStrokePathUsingEvenOddRule
  | BeginMarkedContentSequenceWithPropertyList
  | BeginInlineImageObject
  | BeginMarkedContentSequence
  | BeginTextObject
  | BeginCompatibilitySection
  | AppendCurvedSegmentToPath (x1 y1 x2 y2 x3 y3 : F32)
  | ConcatenateMatrixToCurrentTransformationMatrix (a b c d e f : F32)
  | SetColorSpaceForStrokingOperations (name : String)
  | SetColorSpaceForNonStrokingOperations (name : String)
  | SetLineDashPattern (array : List F32) (phase : F32)
  | SetGlyphWidthInType3Font (wx wy : F32)
  | SetGlyphWidthAndBoundingBoxInType3Font (wx wy llx lly urx ury : F32)
  | InvokeNamedXObject (name : String)
  | DefineMarkedContentPointWithPropertyList
  | EndInlineImageObject
  | EndMarkedContentSequence
  | EndTextObject
  | EndCompatibilitySection
  | FillPathUsingNonZeroWindingNumberRule
  | ObsoleteFillPathUsingNonZeroWindingMumberRule
  | FillPathUsingEvenOddRule
  | SetGrayLevelForStrokingOperations (shade : F32)
  | SetGrayLevelForNonStrokingOperations (shade : F32)
  | SetParametersFromGraphicsStateParameterDictionary (name : String)
  | CloseSubpath
  | SetFlatnessTolerance (flatness : Int)
  | BeginInlineImageData
  | SetLineJoinStyle (style : LineJoinStyle)
  | SetLineCapStyle (style : LineCapStyle)
  | SetCMYKColorForStrokingOperations (c m y k : F32)
  | SetCMYKColorForNonStrokingOperations (c m y k : F32)
  | AppendStraightLineSegmentToPath (x y : F32)
  | BeginNewSubpath (x y : F32)
  | SetMiterLimit (limit : F32)
  | DefineMarkedContentPoint (tag : String)
  | EndPathWithoutFillingOrStroking
  | SaveGraphicsState
  | RestoreGraphicsState
  | AppendRectangleToPath (x y width height : F32)
  | SetRGBColorForStrokingOperations (r g b : F32)
  | SetRGBColorForNonStrokingOperations (r g b : F32)
  | SetColorRenderingIntent (intent : ColorRenderingIntent)
  | CloseAndStrokePath
  | StrokePath
  | SetColorForStrokingOperations (color : UntypedColor)
  | SetColorForNonStrokingOperations (color : UntypedColor)
  | SetColorForStrokingOperationsICCBasedAndSpecialColorSpaces
      (cs : List F32) (name : Option String)
  | SetColorForNonStrokingOperationsICCBasedAndSpecialColorSpaces
      (cs : List F32) (name : Option String)
  | PaintAreaDefinedByShadingPattern (name : String)
  | MoveToStartOfNextTextLine
  | SetCharacterSpacing (spacing : F32)
  | MoveTextPosition (x y : F32)
  | MoveTextPositionAndSetLeading (x y : F32)
  | SetTextFontAndSize (font : String) (size : F32)
  | ShowText (text : String)
  | ShowTextAllowingIndividualGlyphPositioning (items : List TextOrGlyphPositioning)
  | SetTextLeading (leading : F32)
  | SetTextMatrixAndTextLineMatrix (a b c d e f : F32)
  | SetTextRenderingMode (mode : TextRenderingMode)
  | SetTextRise (rise : F32)
  | SetWordSpacing (spacing : F32)
  | SetHorizontalTextScaling (scale : F32)
  | AppendCurvedSegmentToPathInitialPointReplicated (x2 y2 x3 y3 : F32)
  | SetLineWidth (width : F32)
  | SetClippingPathUsingNonZeroWindingNumberRule
  | SetClippingPathUsingEvenOddRule
  | AppendCurvedSegmentToPathFinalPointReplicated (x1 y1 x3 y3 : F32)
  | MoveToNextLineAndShowText (text : String)
  | SetWordAndCharacterSpacingMoveToNextLineAndShowText
      (text : String) (word_spacing : F32) (character_spacing : F32)
  | Unknown (operator : String) (operands : List Primitive)


/-- The `base` field of `pdf::encoding::Encoding`; only the distinction
Identity-H versus everything else matters to the decoder. -/
inductive BaseEncoding where
  | StandardEncoding | WinAnsiEncoding | MacRomanEncoding | MacExpertEncoding
  | IdentityH


structure Encoding where
  base : BaseEncoding


/-- `FontInfo { font: RcRef<Font>, cmap: HashMap<u16,String> }`.  The font
object is observed only through `font.encoding()`, so the structure records
the result of that call directly; the `HashMap` becomes an association list. -/
structure FontInfo where
  encoding : Option Encoding
  cmap : List (Nat × String)

/-- Rust `slice::windows(n)`: every contiguous window of length `n`, in order,
overlapping — the window at position `i` is `xs[i .. i+n)`, for
`i < xs.length + 1 - n`; empty when `n` exceeds the length (`n = 0` panics in
Rust and is unreachable here since the decoder always passes 2). -/
def windowsList (n : Nat) (xs : List Nat) : List (List Nat) :=
  (List.range (xs.length + 1 - n)).map fun i => (xs.drop i).take n

/-- `u16::from_be_bytes(w.try_into().unwrap())`: the fallible conversion of a
slice to a 2-byte array followed by big-endian assembly.  `none` models the
`try_into` failure (an `unwrap` panic in Rust). -/
def beU16 : List Nat → Option Nat
  | [b0, b1] => some (b0 * 256 + b1)
  | _ => none

/-- The Identity-H branch of `decode_string`: iterate `text.as_bytes().windows(2)`,
assemble each window big-endian, look it up in the cmap, append hits, drop
misses.  The `Option` layer carries the potential `unwrap` panic of the slice
conversion. -/
def decodeIdentityH (cmap : List (Nat × String)) (bytes : List Nat) : Option String :=
  (windowsList 2 bytes).foldlM
    (fun out w =>
      (beU16 w).map fun cp =>
        match cmap.lookup cp with
        | some s => out ++ s
        | none => out)
    ""

/-- The non-Identity-H branch of `decode_string`: one byte at a time, cmap hit
appends the mapped fragment, miss appends the byte reinterpreted as a char
(`out.push(b as char)`). -/
def decodeSimple (cmap : List (Nat × String)) (bytes : List Nat) : String :=
  bytes.foldl
    (fun out b =>
      match cmap.lookup b with
      | some s => out ++ s
      | none => out.push (Char.ofNat b))
    ""

/-- `decode_string(text, current_font)`.  `asStr` is the external
`PdfString::as_str` of the pdf crate (UTF-8-ish interpretation of the raw
bytes), kept abstract as a parameter since its body is outside this
repository; `none` models both a `pdf::error::Result` error and a panic. -/
def decode_string (asStr : List Nat → Option String)
    (text : List Nat) (current_font : Option FontInfo) : Option String :=
  match current_font with
  | some cf =>
    match cf.encoding with
    | some encoding =>
      match encoding.base with
      | BaseEncoding.IdentityH => decodeIdentityH cf.cmap text
      | _ => some (decodeSimple cf.cmap text)
    | none => asStr text
  | none => asStr text

/-- `pdf::content::Operation`: a raw instruction. -/
structure PdfOperation where
  operator : String
  operands : List Primitive


/-- Helper for the Rust slice pattern `[primitive_cs @ .., Primitive::Name(name)]`:
split a list into its initial segment and last element. -/
def splitLast : List Primitive → Option (List Primitive × Primitive)
  | [] => none
  | [x] => some ([], x)
  | x :: xs => (splitLast xs).map fun p => (x :: p.1, p.2)

/-- `normalize_operation_with_font(operation, current_font)`: the classifier.
`asStr` is the external `PdfString::as_str`, threaded through to
`decode_string`.  The source matches on `(operator, operands)` with all arms
for one operator contiguous; here the operator is matched first and the
operand shapes nested, which preserves arm order and semantics. -/
def normalize_operation_with_font (asStr : List Nat → Option String)
    (operation : PdfOperation) (current_font : Option FontInfo) : Operation :=
  let operator := operation.operator
  let operands := operation.operands
  match operator with
  | "b" => Operation.CloseFillAndStrokePathUsingNonZeroWindingNumber
  | "B" => Operation.FillAndStrokePathUsingNonZeroWindingNumber
  | "b*" => Operation.CloseFillAndStrokePathUsingEvenOddRule
  | "B*" => Operation.FillAndStrokePathUsingEvenOddRule
  | "BDC" =>
    match operands with
    | [] => Operation.BeginMarkedContentSequenceWithPropertyList
    | _ => Operation.Unknown operator operands
  | "BI" =>
    match operands with
    | [] => Operation.BeginInlineImageObject
    | _ => Operation.Unknown operator operands
  | "BMC" =>
    match operands with
    | [] => Operation.BeginMarkedContentSequence
    | _ => Operation.Unknown operator operands
  | "BT" => Operation.BeginTextObject
  | "BX" =>
    match operands with
    | [] => Operation.BeginCompatibilitySection
    | _ => Operation.Unknown operator operands
  | "c" =>
    let ns := operands.filterMap Primitive.try_to_f
    match ns with
    | [x1, y1, x2, y2, x3, y3] => Operation.AppendCurvedSegmentToPath x1 y1 x2 y2 x3 y3
    | _ => Operation.Unknown operator operands
  | "cm" =>
    let ns := operands.filterMap Primitive.try_to_f
    match ns with
    | [a, b, c, d, e, f] =>
      Operation.ConcatenateMatrixToCurrentTransformationMatrix a b c d e f
    | _ => Operation.Unknown operator operands
  | "CS" =>
    match operands with
    | [.name n] => Operation.SetColorSpaceForStrokingOperations n
    | _ => Operation.Unknown operator operands
  | "cs" =>
    match operands with
    | [.name n] => Operation.SetColorSpaceForNonStrokingOperations n
    | _ => Operation.Unknown operator operands
  | "d" =>
    match operands with
    | [.array primitive_array, phase] =>
      let array := primitive_array.filterMap fun n =>
        match n with
        | .integer n => some ((n : F32))
        | .number n => some n
        | _ => none
      match phase.try_to_f with
      | some phase =>
        if array.length = primitive_array.length then
          Operation.SetLineDashPattern array phase
        else Operation.Unknown operator operands
      | none => Operation.Unknown operator operands
    | _ => Operation.Unknown operator operands
  | "d0" =>
    match operands with
    | [wx, wy] =>
      match wx.try_to_f, wy.try_to_f with
      | some wx, some wy => Operation.SetGlyphWidthInType3Font wx wy
      | _, _ => Operation.Unknown operator operands
    | _ => Operation.Unknown operator operands
  | "d1" =>
    match operands with
    | [wx, wy, llx, lly, urx, ury] =>
      match wx.try_to_f, wy.try_to_f, llx.try_to_f, lly.try_to_f,
          urx.try_to_f, ury.try_to_f with
      | some wx, some wy, some llx, some lly, some urx, some ury =>
        Operation.SetGlyphWidthAndBoundingBoxInType3Font wx wy llx lly urx ury
      | _, _, _, _, _, _ => Operation.Unknown operator operands
    | _ => Operation.Unknown operator operands
  | "Do" =>
    match operands with
    | [.name n] => Operation.InvokeNamedXObject n
    | _ => Operation.Unknown operator operands
  | "DP" =>
    match operands with
    | [] => Operation.DefineMarkedContentPointWithPropertyList
    | _ => Operation.Unknown operator operands
  | "EI" =>
    match operands with
    | [] => Operation.EndInlineImageObject
    | _ => Operation.Unknown operator operands
  | "EMC" =>
    match operands with
    | [] => Operation.EndMarkedContentSequence
    | _ => Operation.Unknown operator operands
  | "ET" => Operation.EndTextObject
  | "EX" =>
    match operands with
    | [] => Operation.EndCompatibilitySection
    | _ => Operation.Unknown operator operands
  | "f" => Operation.FillPathUsingNonZeroWindingNumberRule
  | "F" => Operation.ObsoleteFillPathUsingNonZeroWindingMumberRule
  | "f*" => Operation.FillPathUsingEvenOddRule
  | "G" =>
    match operands with
    | [.number shade] => Operation.SetGrayLevelForStrokingOperations shade
    | [.integer shade] => Operation.SetGrayLevelForStrokingOperations (shade : F32)
    | _ => Operation.Unknown operator operands
  | "g" =>
    match operands with
    | [.number shade] => Operation.SetGrayLevelForNonStrokingOperations shade
    | [.integer shade] => Operation.SetGrayLevelForNonStrokingOperations (shade : F32)
    | _ => Operation.Unknown operator operands
  | "gs" =>
    match operands with
    | [.name n] => Operation.SetParametersFromGraphicsStateParameterDictionary n
    | _ => Operation.Unknown operator operands
  | "h" => Operation.CloseSubpath
  | "i" =>
    match operands with
    | [.integer flatness] => Operation.SetFlatnessTolerance flatness
    | _ => Operation.Unknown operator operands
  | "ID" =>
    match operands with
    | [] => Operation.BeginInlineImageData
    | _ => Operation.Unknown operator operands
  | "j" =>
    match operands with
    | [.integer 0] => Operation.SetLineJoinStyle LineJoinStyle.MiterJoin
    | [.integer 1] => Operation.SetLineJoinStyle LineJoinStyle.RoundJoin
    | [.integer 2] => Operation.SetLineJoinStyle LineJoinStyle.BevelJoin
    | _ => Operation.Unknown operator operands
  | "J" =>
    match operands with
    | [.integer 0] => Operation.SetLineCapStyle LineCapStyle.ButtCap
    | [.integer 1] => Operation.SetLineCapStyle LineCapStyle.RoundCap
    | [.integer 2] => Operation.SetLineCapStyle LineCapStyle.ProjectingSquareCap
    | _ => Operation.Unknown operator operands
  | "K" =>
    match operands with
    | [c, m, y, k] =>
      match c.try_to_f, m.try_to_f, y.try_to_f, k.try_to_f with
      | some c, some m, some y, some k =>
        Operation.SetCMYKColorForStrokingOperations c m y k
      | _, _, _, _ => Operation.Unknown operator operands
    | _ => Operation.Unknown operator operands
  | "k" =>
    match operands with
    | [c, m, y, k] =>
      match c.try_to_f, m.try_to_f, y.try_to_f, k.try_to_f with
      | some c, some m, some y, some k =>
        Operation.SetCMYKColorForNonStrokingOperations c m y k
      | _, _, _, _ => Operation.Unknown operator operands
    | _ => Operation.Unknown operator operands
  | "l" =>
    match operands with
    | [x, y] =>
      match x.try_to_f, y.try_to_f with
      | some x, some y => Operation.AppendStraightLineSegmentToPath x y
      | _, _ => Operation.Unknown operator operands
    | _ => Operation.Unknown operator operands
  | "m" =>
    match operands with
    | [x, y] =>
      match x.try_to_f, y.try_to_f with
      | some x, some y => Operation.BeginNewSubpath x y
      | _, _ => Operation.Unknown operator operands
    | _ => Operation.Unknown operator operands
  | "M" =>
    match operands with
    | [limit] =>
      match limit.try_to_f with
      | some limit => Operation.SetMiterLimit limit
      | none => Operation.Unknown operator operands
    | _ => Operation.Unknown operator operands
  | "MP" =>
    match operands with
    | [.name tag] => Operation.DefineMarkedContentPoint tag
    | _ => Operation.Unknown operator operands
  | "n" => Operation.EndPathWithoutFillingOrStroking
  | "q" => Operation.SaveGraphicsState
  | "Q" => Operation.RestoreGraphicsState
  | "re" =>
    match operands with
    | [x, y, width, height] =>
      match x.try_to_f, y.try_to_f, width.try_to_f, height.try_to_f with
      | some x, some y, some width, some height =>
        Operation.AppendRectangleToPath x y width height
      | _, _, _, _ => Operation.Unknown operator operands
    | _ => Operation.Unknown operator operands
  | "RG" =>
    match operands with
    | [r, g, b] =>
      match r.try_to_f, g.try_to_f, b.try_to_f with
      | some r, some g, some b => Operation.SetRGBColorForStrokingOperations r g b
      | _, _, _ => Operation.Unknown operator operands
    | _ => Operation.Unknown operator operands
  | "rg" =>
    match operands with
    | [r, g, b] =>
      match r.try_to_f, g.try_to_f, b.try_to_f with
      | some r, some g, some b => Operation.SetRGBColorForNonStrokingOperations r g b
      | _, _, _ => Operation.Unknown operator operands
    | _ => Operation.Unknown operator operands
  | "ri" =>
    match operands with
    | [.name n] =>
      if n = "AbsoluteColorimetric" then
        Operation.SetColorRenderingIntent ColorRenderingIntent.AbsoluteColorimetric
      else if n = "RelativeColorimetric" then
        Operation.SetColorRenderingIntent ColorRenderingIntent.RelativeColorimetric
      else if n = "Saturation" then
        Operation.SetColorRenderingIntent ColorRenderingIntent.Saturation
      else if n = "Perceptual" then
        Operation.SetColorRenderingIntent ColorRenderingIntent.Perceptual
      else Operation.Unknown operator operands
    | _ => Operation.Unknown operator operands
  | "s" => Operation.CloseAndStrokePath
  | "S" => Operation.StrokePath
  | "SC" =>
    match operands with
    | [a] =>
      match a.try_to_f with
      | some a =>
        Operation.SetColorForStrokingOperations
          (UntypedColor.DeviceGrayCalGrayOrIndexed a)
      | none => Operation.Unknown operator operands
    | [a, b, c] =>
      match a.try_to_f, b.try_to_f, c.try_to_f with
      | some a, some b, some c =>
        Operation.SetColorForStrokingOperations (UntypedColor.DeviceRGBCalRGBOrLab a b c)
      | _, _, _ => Operation.Unknown operator operands
    | [a, b, c, d] =>
      match a.try_to_f, b.try_to_f, c.try_to_f, d.try_to_f with
      | some a, some b, some c, some d =>
        Operation.SetColorForStrokingOperations (UntypedColor.DeviceCMYK a b c d)
      | _, _, _, _ => Operation.Unknown operator operands
    | _ => Operation.Unknown operator operands
  | "sc" =>
    match operands with
    | [a] =>
      match a.try_to_f with
      | some a =>
        Operation.SetColorForNonStrokingOperations
          (UntypedColor.DeviceGrayCalGrayOrIndexed a)
      | none => Operation.Unknown operator operands
    | [a, b, c] =>
      match a.try_to_f, b.try_to_f, c.try_to_f with
      | some a, some b, some c =>
        Operation.SetColorForNonStrokingOperations
          (UntypedColor.DeviceRGBCalRGBOrLab a b c)
      | _, _, _ => Operation.Unknown operator operands
    | [a, b, c, d] =>
      match a.try_to_f, b.try_to_f, c.try_to_f, d.try_to_f with
      | some a, some b, some c, some d =>
        Operation.SetColorForNonStrokingOperations (UntypedColor.DeviceCMYK a b c d)
      | _, _, _, _ => Operation.Unknown operator operands
    | _ => Operation.Unknown operator operands
  | "SCN" =>
    match splitLast operands with
    | some (primitive_cs, .name n) =>
      let cs := primitive_cs.filterMap Primitive.try_to_f
      if cs.length = primitive_cs.length then
        Operation.SetColorForStrokingOperationsICCBasedAndSpecialColorSpaces cs (some n)
      else Operation.Unknown operator operands
    | _ =>
      let cs := operands.filterMap Primitive.try_to_f
      if cs.length = operands.length then
        Operation.SetColorForStrokingOperationsICCBasedAndSpecialColorSpaces cs none
      else Operation.Unknown operator operands
  | "scn" =>
    match splitLast operands with
    | some (primitive_cs, .name n) =>
      let cs := primitive_cs.filterMap Primitive.try_to_f
      if cs.length = primitive_cs.length then
        Operation.SetColorForNonStrokingOperationsICCBasedAndSpecialColorSpaces cs (some n)
      else Operation.Unknown operator operands
    | _ =>
      let cs := operands.filterMap Primitive.try_to_f
      if cs.length = operands.length then
        Operation.SetColorForNonStrokingOperationsICCBasedAndSpecialColorSpaces cs none
      else Operation.Unknown operator operands
  | "sh" =>
    match operands with
    | [.name n] => Operation.PaintAreaDefinedByShadingPattern n
    | _ => Operation.Unknown operator operands
  | "T*" => Operation.MoveToStartOfNextTextLine
  | "Tc" =>
    match operands with
    | [.number spacing] => Operation.SetCharacterSpacing spacing
    | [.integer spacing] => Operation.SetCharacterSpacing (spacing : F32)
    | _ => Operation.Unknown operator operands
  | "Td" =>
    match operands with
    | [x, y] =>
      match x.try_to_f, y.try_to_f with
      | some x, some y => Operation.MoveTextPosition x y
      | _, _ => Operation.Unknown operator operands
    | _ => Operation.Unknown operator operands
  | "TD" =>
    match operands with
    | [x, y] =>
      match x.try_to_f, y.try_to_f with
      | some x, some y => Operation.MoveTextPositionAndSetLeading x y
      | _, _ => Operation.Unknown operator operands
    | _ => Operation.Unknown operator operands
  | "Tf" =>
    match operands with
    | [.name font, .number size] => Operation.SetTextFontAndSize font size
    | [.name font, .integer size] => Operation.SetTextFontAndSize font (size : F32)
    | _ => Operation.Unknown operator operands
  | "Tj" =>
    match operands with
    | [.string text] =>
      match decode_string asStr text current_font with
      | some s => Operation.ShowText s
      | none => Operation.Unknown operator operands
    | _ => Operation.Unknown operator operands
  | "TJ" =>
    match operands with
    | [.array primitive_array] =>
      let array := primitive_array.filterMap fun primitive =>
        match primitive with
        | .string s =>
          (decode_string asStr s current_font).map TextOrGlyphPositioning.Text
        | .number glyph_positioning =>
          some (TextOrGlyphPositioning.GlyphPositioning glyph_positioning)
        | .integer glyph_positioning =>
          some (TextOrGlyphPositioning.GlyphPositioning (glyph_positioning : F32))
        | _ => none
      if primitive_array.length = array.length then
        Operation.ShowTextAllowingIndividualGlyphPositioning array
      else Operation.Unknown operator operands
    | _ => Operation.Unknown operator operands
  | "TL" =>
    match operands with
    | [.number leading] => Operation.SetTextLeading leading
    | _ => Operation.Unknown operator operands
  | "Tm" =>
    let ns := operands.filterMap Primitive.try_to_f
    match ns with
    | [a, b, c, d, e, f] =>
      if a = 1 ∧ b = 0 ∧ c = 0 ∧ d = 1 then
        Operation.MoveTextPosition e f
      else
        Operation.SetTextMatrixAndTextLineMatrix a b c d e f
    | _ => Operation.Unknown operator operands
  | "Tr" =>
    match operands with
    | [.integer 0] => Operation.SetTextRenderingMode TextRenderingMode.FillText
    | [.integer 1] => Operation.SetTextRenderingMode TextRenderingMode.StrokeText
    | [.integer 2] => Operation.SetTextRenderingMode TextRenderingMode.FillThenStrokeText
    | [.integer 3] => Operation.SetTextRenderingMode TextRenderingMode.Invisible
    | [.integer 4] =>
      Operation.SetTextRenderingMode TextRenderingMode.FillTextAndAddToPathForClipping
    | [.integer 5] =>
      Operation.SetTextRenderingMode TextRenderingMode.StrokeTextAndAddToPathForClipping
    | [.integer 6] =>
      Operation.SetTextRenderingMode
        TextRenderingMode.FillThenStrokeTextAndAddToPathForClipping
    | [.integer 7] =>
      Operation.SetTextRenderingMode TextRenderingMode.AddTextToPathForClipping
    | _ => Operation.Unknown operator operands
  | "Ts" =>
    match operands with
    | [rise] =>
      match rise.try_to_f with
      | some rise => Operation.SetTextRise rise
      | none => Operation.Unknown operator operands
    | _ => Operation.Unknown operator operands
  | "Tw" =>
    match operands with
    | [spacing] =>
      match spacing.try_to_f with
      | some spacing => Operation.SetWordSpacing spacing
      | none => Operation.Unknown operator operands
    | _ => Operation.Unknown operator operands
  | "Tz" =>
    match operands with
    | [scale] =>
      match scale.try_to_f with
      | some scale => Operation.SetHorizontalTextScaling scale
      | none => Operation.Unknown operator operands
    | _ => Operation.Unknown operator operands
  | "v" =>
    match operands with
    | [x2, y2, x3, y3] =>
      match x2.try_to_f, y2.try_to_f, x3.try_to_f, y3.try_to_f with
      | some x2, some y2, some x3, some y3 =>
        Operation.AppendCurvedSegmentToPathInitialPointReplicated x2 y2 x3 y3
      | _, _, _, _ => Operation.Unknown operator operands
    | _ => Operation.Unknown operator operands
  | "w" =>
    match operands with
    | [.number width] => Operation.SetLineWidth width
    | [.integer width] => Operation.SetLineWidth (width : F32)
    | _ => Operation.Unknown operator operands
  | "W" => Operation.SetClippingPathUsingNonZeroWindingNumberRule
  | "W*" => Operation.SetClippingPathUsingEvenOddRule
  | "y" =>
    match operands with
    | [x1, y1, x3, y3] =>
      match x1.try_to_f, y1.try_to_f, x3.try_to_f, y3.try_to_f with
      | some x1, some y1, some x3, some y3 =>
        Operation.AppendCurvedSegmentToPathFinalPointReplicated x1 y1 x3 y3
      | _, _, _, _ => Operation.Unknown operator operands
    | _ => Operation.Unknown operator operands
  | "\x27" =>
    match operands with
    | [.string text] =>
      match decode_string asStr text current_font with
      | some s => Operation.MoveToNextLineAndShowText s
      | none => Operation.Unknown operator operands
    | _ => Operation.Unknown operator operands
  | "\"" =>
    match operands with
    | [word_spacing, character_spacing, .string text] =>
      match word_spacing.try_to_f, character_spacing.try_to_f,
          decode_string asStr text current_font with
      | some word_spacing, some character_spacing, some text =>
        Operation.SetWordAndCharacterSpacingMoveToNextLineAndShowText
          text word_spacing character_spacing
      | _, _, _ => Operation.Unknown operator operands
    | _ => Operation.Unknown operator operands
  | _ => Operation.Unknown operator operands

/-- `normalize_operation(operation)`: the no-font entry point. -/
def normalize_operation (asStr : List Nat → Option String)
    (operation : PdfOperation) : Operation :=
  normalize_operation_with_font asStr operation none

/-- A concrete stand-in for the external `PdfString::as_str` used when a claim
needs a closed evaluation; no claim exercises the no-font decode path, so any
value works. -/
def asStrDefault : List Nat → Option String := fun _ => none

/-! Dispatch equations: arm-level restatements of
`normalize_operation_with_font`, each holding by definitional unfolding of
the dispatcher on a concrete operator name. -/

theorem normalize_c_eq (asStr : List Nat → Option String) (fnt : Option FontInfo)
    (ops : List Primitive) :
    normalize_operation_with_font asStr ⟨"c", ops⟩ fnt =
      match ops.filterMap Primitive.try_to_f with
      | [x1, y1, x2, y2, x3, y3] => Operation.AppendCurvedSegmentToPath x1 y1 x2 y2 x3 y3
      | _ => Operation.Unknown "c" ops := rfl

theorem normalize_cm_eq (asStr : List Nat → Option String) (fnt : Option FontInfo)
    (ops : List Primitive) :
    normalize_operation_with_font asStr ⟨"cm", ops⟩ fnt =
      match ops.filterMap Primitive.try_to_f with
      | [a, b, c, d, e, f] =>
        Operation.ConcatenateMatrixToCurrentTransformationMatrix a b c d e f
      | _ => Operation.Unknown "cm" ops := rfl

theorem normalize_Tm_eq (asStr : List Nat → Option String) (fnt : Option FontInfo)
    (ops : List Primitive) :
    normalize_operation_with_font asStr ⟨"Tm", ops⟩ fnt =
      match ops.filterMap Primitive.try_to_f with
      | [a, b, c, d, e, f] =>
        if a = 1 ∧ b = 0 ∧ c = 0 ∧ d = 1 then
          Operation.MoveTextPosition e f
        else
          Operation.SetTextMatrixAndTextLineMatrix a b c d e f
      | _ => Operation.Unknown "Tm" ops := rfl

/-! Claim theorems. -/

/-- Claim C9: the no-font entry point `normalize_operation` is definitionally
the font-aware entry point `normalize_operation_with_font` applied to an
absent font. -/
theorem claim9_no_font_entry_point (asStr : List Nat → Option String)
    (operation : PdfOperation) :
    normalize_operation asStr operation =
      normalize_operation_with_font asStr operation none := rfl

/-- Claim C1 counterexample: a `cm` instruction with seven raw operands of
which exactly six are numeric classifies as the typed matrix variant, not as
`Unknown` — the `c`/`cm` arms never compare the filtered count against the
raw operand count. -/
theorem claim1_counterexample :
    normalize_operation_with_font asStrDefault
      ⟨"cm", [.integer 1, .integer 2, .integer 3, .integer 4, .integer 5, .integer 6,
              .name "x"]⟩ none =
      Operation.ConcatenateMatrixToCurrentTransformationMatrix 1 2 3 4 5 6 ∧
    normalize_operation_with_font asStrDefault
      ⟨"cm", [.integer 1, .integer 2, .integer 3, .integer 4, .integer 5, .integer 6,
              .name "x"]⟩ none ≠
      Operation.Unknown "cm"
        [.integer 1, .integer 2, .integer 3, .integer 4, .integer 5, .integer 6,
         .name "x"] := by
  refine ⟨rfl, fun hcontra => ?_⟩
  exact Operation.noConfusion hcontra

/-- Claim C1 (amended): for the fixed-length numeric-tuple operators `c` and
`cm`, the operand list is filtered for numerically coercible values and the
typed variant is produced exactly when the filtered list has length six; the
filtered count is never compared against the raw operand count, so raw
non-numeric operands are silently dropped and a seventh non-numeric operand
does not force `Unknown`. -/
theorem claim1_fixed_tuple_arity (asStr : List Nat → Option String)
    (fnt : Option FontInfo) (ops : List Primitive) :
    normalize_operation_with_font asStr ⟨"cm", ops⟩ fnt =
      (match ops.filterMap Primitive.try_to_f with
       | [a, b, c, d, e, f] =>
         Operation.ConcatenateMatrixToCurrentTransformationMatrix a b c d e f
       | _ => Operation.Unknown "cm" ops) ∧
    normalize_operation_with_font asStr ⟨"c", ops⟩ fnt =
      (match ops.filterMap Primitive.try_to_f with
       | [x1, y1, x2, y2, x3, y3] =>
         Operation.AppendCurvedSegmentToPath x1 y1 x2 y2 x3 y3
       | _ => Operation.Unknown "c" ops) := ⟨rfl, rfl⟩

/-- Claim C3 counterexample: the set-text-leading operator `TL` matches only a
real operand, so the integer operand `5` classifies as `Unknown` while the
real operand `5.0` classifies as `SetTextLeading 5` — numeric coercion is not
representation-independent there. -/
theorem claim3_counterexample :
    normalize_operation_with_font asStrDefault ⟨"TL", [.integer 5]⟩ none ≠
      normalize_operation_with_font asStrDefault ⟨"TL", [.number 5]⟩ none ∧
    normalize_operation_with_font asStrDefault ⟨"TL", [.integer 5]⟩ none =
      Operation.Unknown "TL" [.integer 5] ∧
    normalize_operation_with_font asStrDefault ⟨"TL", [.number 5]⟩ none =
      Operation.SetTextLeading 5 := by
  refine ⟨fun hcontra => ?_, rfl, rfl⟩
  exact Operation.noConfusion hcontra

/-- Claim C3 (amended): classification is representation-independent — an
integer operand `N` and the real operand `N.0` classify to the same
`Operation` — for every operator whose numeric operands go through `try_to_f`
or through twin real/integer arms (`c`, `cm`, `d`, `d0`, `d1`, `G`, `g`, `K`,
`k`, `l`, `m`, `M`, `re`, `RG`, `rg`, `SC`, `sc`, `SCN`, `scn`, `Tc`, `Td`,
`TD`, `Tf`, `TJ`, `Tm`, `Ts`, `Tw`, `Tz`, `v`, `w`, `y` and the quoted
show-text operator); it fails for `TL`, which accepts only a real operand (an
integer classifies as `Unknown`), and for `i`, `j`, `J` and `Tr`, which accept
only integer operands (a real classifies as `Unknown`). -/
theorem claim3_representation_independence (asStr : List Nat → Option String)
    (fnt : Option FontInfo) :
    (∀ x1 y1 x2 y2 x3 y3 : Int,
      normalize_operation_with_font asStr ⟨"c", [.integer x1, .integer y1, .integer x2, .integer y2, .integer x3, .integer y3]⟩ fnt =
        Operation.AppendCurvedSegmentToPath (x1 : F32) (y1 : F32) (x2 : F32) (y2 : F32) (x3 : F32) (y3 : F32) ∧
      normalize_operation_with_font asStr ⟨"c", [.number (x1 : F32), .number (y1 : F32), .number (x2 : F32), .number (y2 : F32), .number (x3 : F32), .number (y3 : F32)]⟩ fnt =
        Operation.AppendCurvedSegmentToPath (x1 : F32) (y1 : F32) (x2 : F32) (y2 : F32) (x3 : F32) (y3 : F32)) ∧
    (∀ a b c d e f : Int,
      normalize_operation_with_font asStr ⟨"cm", [.integer a, .integer b, .integer c, .integer d, .integer e, .integer f]⟩ fnt =
        Operation.ConcatenateMatrixToCurrentTransformationMatrix (a : F32) (b : F32) (c : F32) (d : F32) (e : F32) (f : F32) ∧
      normalize_operation_with_font asStr ⟨"cm", [.number (a : F32), .number (b : F32), .number (c : F32), .number (d : F32), .number (e : F32), .number (f : F32)]⟩ fnt =
        Operation.ConcatenateMatrixToCurrentTransformationMatrix (a : F32) (b : F32) (c : F32) (d : F32) (e : F32) (f : F32)) ∧
    (∀ x p : Int,
      normalize_operation_with_font asStr ⟨"d", [.array [.integer x], .integer p]⟩ fnt =
        Operation.SetLineDashPattern [(x : F32)] (p : F32) ∧
      normalize_operation_with_font asStr ⟨"d", [.array [.number (x : F32)], .number (p : F32)]⟩ fnt =
        Operation.SetLineDashPattern [(x : F32)] (p : F32)) ∧
    (∀ wx wy : Int,
      normalize_operation_with_font asStr ⟨"d0", [.integer wx, .integer wy]⟩ fnt =
        Operation.SetGlyphWidthInType3Font (wx : F32) (wy : F32) ∧
      normalize_operation_with_font asStr ⟨"d0", [.number (wx : F32), .number (wy : F32)]⟩ fnt =
        Operation.SetGlyphWidthInType3Font (wx : F32) (wy : F32)) ∧
    (∀ wx wy llx lly urx ury : Int,
      normalize_operation_with_font asStr ⟨"d1", [.integer wx, .integer wy, .integer llx, .integer lly, .integer urx, .integer ury]⟩ fnt =
        Operation.SetGlyphWidthAndBoundingBoxInType3Font (wx : F32) (wy : F32) (llx : F32) (lly : F32) (urx : F32) (ury : F32) ∧
      normalize_operation_with_font asStr ⟨"d1", [.number (wx : F32), .number (wy : F32), .number (llx : F32), .number (lly : F32), .number (urx : F32), .number (ury : F32)]⟩ fnt =
        Operation.SetGlyphWidthAndBoundingBoxInType3Font (wx : F32) (wy : F32) (llx : F32) (lly : F32) (urx : F32) (ury : F32)) ∧
    (∀ n : Int,
      normalize_operation_with_font asStr ⟨"G", [.integer n]⟩ fnt =
        Operation.SetGrayLevelForStrokingOperations (n : F32) ∧
      normalize_operation_with_font asStr ⟨"G", [.number (n : F32)]⟩ fnt =
        Operation.SetGrayLevelForStrokingOperations (n : F32)) ∧
    (∀ n : Int,
      normalize_operation_with_font asStr ⟨"g", [.integer n]⟩ fnt =
        Operation.SetGrayLevelForNonStrokingOperations (n : F32) ∧
      normalize_operation_with_font asStr ⟨"g", [.number (n : F32)]⟩ fnt =
        Operation.SetGrayLevelForNonStrokingOperations (n : F32)) ∧
    (∀ c m y k : Int,
      normalize_operation_with_font asStr ⟨"K", [.integer c, .integer m, .integer y, .integer k]⟩ fnt =
        Operation.SetCMYKColorForStrokingOperations (c : F32) (m : F32) (y : F32) (k : F32) ∧
      normalize_operation_with_font asStr ⟨"K", [.number (c : F32), .number (m : F32), .number (y : F32), .number (k : F32)]⟩ fnt =
        Operation.SetCMYKColorForStrokingOperations (c : F32) (m : F32) (y : F32) (k : F32)) ∧
    (∀ c m y k : Int,
      normalize_operation_with_font asStr ⟨"k", [.integer c, .integer m, .integer y, .integer k]⟩ fnt =
        Operation.SetCMYKColorForNonStrokingOperations (c : F32) (m : F32) (y : F32) (k : F32) ∧
      normalize_operation_with_font asStr ⟨"k", [.number (c : F32), .number (m : F32), .number (y : F32), .number (k : F32)]⟩ fnt =
        Operation.SetCMYKColorForNonStrokingOperations (c : F32) (m : F32) (y : F32) (k : F32)) ∧
    (∀ x y : Int,
      normalize_operation_with_font asStr ⟨"l", [.integer x, .integer y]⟩ fnt =
        Operation.AppendStraightLineSegmentToPath (x : F32) (y : F32) ∧
      normalize_operation_with_font asStr ⟨"l", [.number (x : F32), .number (y : F32)]⟩ fnt =
        Operation.AppendStraightLineSegmentToPath (x : F32) (y : F32)) ∧
    (∀ x y : Int,
      normalize_operation_with_font asStr ⟨"m", [.integer x, .integer y]⟩ fnt =
        Operation.BeginNewSubpath (x : F32) (y : F32) ∧
      normalize_operation_with_font asStr ⟨"m", [.number (x : F32), .number (y : F32)]⟩ fnt =
        Operation.BeginNewSubpath (x : F32) (y : F32)) ∧
    (∀ n : Int,
      normalize_operation_with_font asStr ⟨"M", [.integer n]⟩ fnt =
        Operation.SetMiterLimit (n : F32) ∧
      normalize_operation_with_font asStr ⟨"M", [.number (n : F32)]⟩ fnt =
        Operation.SetMiterLimit (n : F32)) ∧
    (∀ x y w h : Int,
      normalize_operation_with_font asStr ⟨"re", [.integer x, .integer y, .integer w, .integer h]⟩ fnt =
        Operation.AppendRectangleToPath (x : F32) (y : F32) (w : F32) (h : F32) ∧
      normalize_operation_with_font asStr ⟨"re", [.number (x : F32), .number (y : F32), .number (w : F32), .number (h : F32)]⟩ fnt =
        Operation.AppendRectangleToPath (x : F32) (y : F32) (w : F32) (h : F32)) ∧
    (∀ r g b : Int,
      normalize_operation_with_font asStr ⟨"RG", [.integer r, .integer g, .integer b]⟩ fnt =
        Operation.SetRGBColorForStrokingOperations (r : F32) (g : F32) (b : F32) ∧
      normalize_operation_with_font asStr ⟨"RG", [.number (r : F32), .number (g : F32), .number (b : F32)]⟩ fnt =
        Operation.SetRGBColorForStrokingOperations (r : F32) (g : F32) (b : F32)) ∧
    (∀ r g b : Int,
      normalize_operation_with_font asStr ⟨"rg", [.integer r, .integer g, .integer b]⟩ fnt =
        Operation.SetRGBColorForNonStrokingOperations (r : F32) (g : F32) (b : F32) ∧
      normalize_operation_with_font asStr ⟨"rg", [.number (r : F32), .number (g : F32), .number (b : F32)]⟩ fnt =
        Operation.SetRGBColorForNonStrokingOperations (r : F32) (g : F32) (b : F32)) ∧
    (∀ a : Int,
      normalize_operation_with_font asStr ⟨"SC", [.integer a]⟩ fnt =
        Operation.SetColorForStrokingOperations (UntypedColor.DeviceGrayCalGrayOrIndexed (a : F32)) ∧
      normalize_operation_with_font asStr ⟨"SC", [.number (a : F32)]⟩ fnt =
        Operation.SetColorForStrokingOperations (UntypedColor.DeviceGrayCalGrayOrIndexed (a : F32))) ∧
    (∀ a b c : Int,
      normalize_operation_with_font asStr ⟨"SC", [.integer a, .integer b, .integer c]⟩ fnt =
        Operation.SetColorForStrokingOperations (UntypedColor.DeviceRGBCalRGBOrLab (a : F32) (b : F32) (c : F32)) ∧
      normalize_operation_with_font asStr ⟨"SC", [.number (a : F32), .number (b : F32), .number (c : F32)]⟩ fnt =
        Operation.SetColorForStrokingOperations (UntypedColor.DeviceRGBCalRGBOrLab (a : F32) (b : F32) (c : F32))) ∧
    (∀ a b c d : Int,
      normalize_operation_with_font asStr ⟨"SC", [.integer a, .integer b, .integer c, .integer d]⟩ fnt =
        Operation.SetColorForStrokingOperations (UntypedColor.DeviceCMYK (a : F32) (b : F32) (c : F32) (d : F32)) ∧
      normalize_operation_with_font asStr ⟨"SC", [.number (a : F32), .number (b : F32), .number (c : F32), .number (d : F32)]⟩ fnt =
        Operation.SetColorForStrokingOperations (UntypedColor.DeviceCMYK (a : F32) (b : F32) (c : F32) (d : F32))) ∧
    (∀ a : Int,
      normalize_operation_with_font asStr ⟨"sc", [.integer a]⟩ fnt =
        Operation.SetColorForNonStrokingOperations (UntypedColor.DeviceGrayCalGrayOrIndexed (a : F32)) ∧
      normalize_operation_with_font asStr ⟨"sc", [.number (a : F32)]⟩ fnt =
        Operation.SetColorForNonStrokingOperations (UntypedColor.DeviceGrayCalGrayOrIndexed (a : F32))) ∧
    (∀ a b c : Int,
      normalize_operation_with_font asStr ⟨"sc", [.integer a, .integer b, .integer c]⟩ fnt =
        Operation.SetColorForNonStrokingOperations (UntypedColor.DeviceRGBCalRGBOrLab (a : F32) (b : F32) (c : F32)) ∧
      normalize_operation_with_font asStr ⟨"sc", [.number (a : F32), .number (b : F32), .number (c : F32)]⟩ fnt =
        Operation.SetColorForNonStrokingOperations (UntypedColor.DeviceRGBCalRGBOrLab (a : F32) (b : F32) (c : F32))) ∧
    (∀ a b c d : Int,
      normalize_operation_with_font asStr ⟨"sc", [.integer a, .integer b, .integer c, .integer d]⟩ fnt =
        Operation.SetColorForNonStrokingOperations (UntypedColor.DeviceCMYK (a : F32) (b : F32) (c : F32) (d : F32)) ∧
      normalize_operation_with_font asStr ⟨"sc", [.number (a : F32), .number (b : F32), .number (c : F32), .number (d : F32)]⟩ fnt =
        Operation.SetColorForNonStrokingOperations (UntypedColor.DeviceCMYK (a : F32) (b : F32) (c : F32) (d : F32))) ∧
    (∀ (x : Int) (nm : String),
      normalize_operation_with_font asStr ⟨"SCN", [.integer x, .name nm]⟩ fnt =
        Operation.SetColorForStrokingOperationsICCBasedAndSpecialColorSpaces [(x : F32)] (some nm) ∧
      normalize_operation_with_font asStr ⟨"SCN", [.number (x : F32), .name nm]⟩ fnt =
        Operation.SetColorForStrokingOperationsICCBasedAndSpecialColorSpaces [(x : F32)] (some nm)) ∧
    (∀ x : Int,
      normalize_operation_with_font asStr ⟨"SCN", [.integer x]⟩ fnt =
        Operation.SetColorForStrokingOperationsICCBasedAndSpecialColorSpaces [(x : F32)] none ∧
      normalize_operation_with_font asStr ⟨"SCN", [.number (x : F32)]⟩ fnt =
        Operation.SetColorForStrokingOperationsICCBasedAndSpecialColorSpaces [(x : F32)] none) ∧
    (∀ (x : Int) (nm : String),
      normalize_operation_with_font asStr ⟨"scn", [.integer x, .name nm]⟩ fnt =
        Operation.SetColorForNonStrokingOperationsICCBasedAndSpecialColorSpaces [(x : F32)] (some nm) ∧
      normalize_operation_with_font asStr ⟨"scn", [.number (x : F32), .name nm]⟩ fnt =
        Operation.SetColorForNonStrokingOperationsICCBasedAndSpecialColorSpaces [(x : F32)] (some nm)) ∧
    (∀ x : Int,
      normalize_operation_with_font asStr ⟨"scn", [.integer x]⟩ fnt =
        Operation.SetColorForNonStrokingOperationsICCBasedAndSpecialColorSpaces [(x : F32)] none ∧
      normalize_operation_with_font asStr ⟨"scn", [.number (x : F32)]⟩ fnt =
        Operation.SetColorForNonStrokingOperationsICCBasedAndSpecialColorSpaces [(x : F32)] none) ∧
    (∀ n : Int,
      normalize_operation_with_font asStr ⟨"Tc", [.integer n]⟩ fnt =
        Operation.SetCharacterSpacing (n : F32) ∧
      normalize_operation_with_font asStr ⟨"Tc", [.number (n : F32)]⟩ fnt =
        Operation.SetCharacterSpacing (n : F32)) ∧
    (∀ x y : Int,
      normalize_operation_with_font asStr ⟨"Td", [.integer x, .integer y]⟩ fnt =
        Operation.MoveTextPosition (x : F32) (y : F32) ∧
      normalize_operation_with_font asStr ⟨"Td", [.number (x : F32), .number (y : F32)]⟩ fnt =
        Operation.MoveTextPosition (x : F32) (y : F32)) ∧
    (∀ x y : Int,
      normalize_operation_with_font asStr ⟨"TD", [.integer x, .integer y]⟩ fnt =
        Operation.MoveTextPositionAndSetLeading (x : F32) (y : F32) ∧
      normalize_operation_with_font asStr ⟨"TD", [.number (x : F32), .number (y : F32)]⟩ fnt =
        Operation.MoveTextPositionAndSetLeading (x : F32) (y : F32)) ∧
    (∀ (fname : String) (size : Int),
      normalize_operation_with_font asStr ⟨"Tf", [.name fname, .integer size]⟩ fnt =
        Operation.SetTextFontAndSize fname (size : F32) ∧
      normalize_operation_with_font asStr ⟨"Tf", [.name fname, .number (size : F32)]⟩ fnt =
        Operation.SetTextFontAndSize fname (size : F32)) ∧
    (∀ x : Int,
      normalize_operation_with_font asStr ⟨"TJ", [.array [.integer x]]⟩ fnt =
        Operation.ShowTextAllowingIndividualGlyphPositioning [TextOrGlyphPositioning.GlyphPositioning (x : F32)] ∧
      normalize_operation_with_font asStr ⟨"TJ", [.array [.number (x : F32)]]⟩ fnt =
        Operation.ShowTextAllowingIndividualGlyphPositioning [TextOrGlyphPositioning.GlyphPositioning (x : F32)]) ∧
    (∀ a b c d e f : Int,
      normalize_operation_with_font asStr ⟨"Tm", [.integer a, .integer b, .integer c, .integer d, .integer e, .integer f]⟩ fnt =
        (if (a : F32) = 1 ∧ (b : F32) = 0 ∧ (c : F32) = 0 ∧ (d : F32) = 1 then
          Operation.MoveTextPosition (e : F32) (f : F32)
        else Operation.SetTextMatrixAndTextLineMatrix (a : F32) (b : F32) (c : F32) (d : F32) (e : F32) (f : F32)) ∧
      normalize_operation_with_font asStr ⟨"Tm", [.number (a : F32), .number (b : F32), .number (c : F32), .number (d : F32), .number (e : F32), .number (f : F32)]⟩ fnt =
        (if (a : F32) = 1 ∧ (b : F32) = 0 ∧ (c : F32) = 0 ∧ (d : F32) = 1 then
          Operation.MoveTextPosition (e : F32) (f : F32)
        else Operation.SetTextMatrixAndTextLineMatrix (a : F32) (b : F32) (c : F32) (d : F32) (e : F32) (f : F32))) ∧
    (∀ n : Int,
      normalize_operation_with_font asStr ⟨"Ts", [.integer n]⟩ fnt =
        Operation.SetTextRise (n : F32) ∧
      normalize_operation_with_font asStr ⟨"Ts", [.number (n : F32)]⟩ fnt =
        Operation.SetTextRise (n : F32)) ∧
    (∀ n : Int,
      normalize_operation_with_font asStr ⟨"Tw", [.integer n]⟩ fnt =
        Operation.SetWordSpacing (n : F32) ∧
      normalize_operation_with_font asStr ⟨"Tw", [.number (n : F32)]⟩ fnt =
        Operation.SetWordSpacing (n : F32)) ∧
    (∀ n : Int,
      normalize_operation_with_font asStr ⟨"Tz", [.integer n]⟩ fnt =
        Operation.SetHorizontalTextScaling (n : F32) ∧
      normalize_operation_with_font asStr ⟨"Tz", [.number (n : F32)]⟩ fnt =
        Operation.SetHorizontalTextScaling (n : F32)) ∧
    (∀ x2 y2 x3 y3 : Int,
      normalize_operation_with_font asStr ⟨"v", [.integer x2, .integer y2, .integer x3, .integer y3]⟩ fnt =
        Operation.AppendCurvedSegmentToPathInitialPointReplicated (x2 : F32) (y2 : F32) (x3 : F32) (y3 : F32) ∧
      normalize_operation_with_font asStr ⟨"v", [.number (x2 : F32), .number (y2 : F32), .number (x3 : F32), .number (y3 : F32)]⟩ fnt =
        Operation.AppendCurvedSegmentToPathInitialPointReplicated (x2 : F32) (y2 : F32) (x3 : F32) (y3 : F32)) ∧
    (∀ n : Int,
      normalize_operation_with_font asStr ⟨"w", [.integer n]⟩ fnt =
        Operation.SetLineWidth (n : F32) ∧
      normalize_operation_with_font asStr ⟨"w", [.number (n : F32)]⟩ fnt =
        Operation.SetLineWidth (n : F32)) ∧
    (∀ x1 y1 x3 y3 : Int,
      normalize_operation_with_font asStr ⟨"y", [.integer x1, .integer y1, .integer x3, .integer y3]⟩ fnt =
        Operation.AppendCurvedSegmentToPathFinalPointReplicated (x1 : F32) (y1 : F32) (x3 : F32) (y3 : F32) ∧
      normalize_operation_with_font asStr ⟨"y", [.number (x1 : F32), .number (y1 : F32), .number (x3 : F32), .number (y3 : F32)]⟩ fnt =
        Operation.AppendCurvedSegmentToPathFinalPointReplicated (x1 : F32) (y1 : F32) (x3 : F32) (y3 : F32)) ∧
    (∀ ws cs : Int,
      normalize_operation_with_font asStr
        ⟨"\"", [.integer ws, .integer cs, .string []]⟩
        (some ⟨some ⟨BaseEncoding.StandardEncoding⟩, []⟩) =
        Operation.SetWordAndCharacterSpacingMoveToNextLineAndShowText "" (ws : F32) (cs : F32) ∧
      normalize_operation_with_font asStr
        ⟨"\"", [.number (ws : F32), .number (cs : F32), .string []]⟩
        (some ⟨some ⟨BaseEncoding.StandardEncoding⟩, []⟩) =
        Operation.SetWordAndCharacterSpacingMoveToNextLineAndShowText "" (ws : F32) (cs : F32)) ∧
    (∀ n : Int,
      normalize_operation_with_font asStr ⟨"TL", [.integer n]⟩ fnt =
        Operation.Unknown "TL" [.integer n]) ∧
    (∀ q : F32,
      normalize_operation_with_font asStr ⟨"i", [.number q]⟩ fnt =
        Operation.Unknown "i" [.number q]) := by
  repeat' apply And.intro
  all_goals intros
  all_goals first
    | exact ⟨rfl, rfl⟩
    | rfl

/-- Claim C5: for the set-text-matrix operator `Tm` with six numeric operands
`(a, b, c, d, e, f)`, the identity linear part `a = 1, b = 0, c = 0, d = 1`
yields the text-position-move variant carrying `(e, f)`; any other values of
`(a, b, c, d)` yield the general set-text-matrix variant carrying all six
components unchanged. -/
theorem claim5_text_matrix_simplification (asStr : List Nat → Option String)
    (fnt : Option FontInfo) (p1 p2 p3 p4 p5 p6 : Primitive) (a b c d e f : F32)
    (h1 : p1.try_to_f = some a) (h2 : p2.try_to_f = some b)
    (h3 : p3.try_to_f = some c) (h4 : p4.try_to_f = some d)
    (h5 : p5.try_to_f = some e) (h6 : p6.try_to_f = some f) :
    normalize_operation_with_font asStr ⟨"Tm", [p1, p2, p3, p4, p5, p6]⟩ fnt =
      if a = 1 ∧ b = 0 ∧ c = 0 ∧ d = 1 then Operation.MoveTextPosition e f
      else Operation.SetTextMatrixAndTextLineMatrix a b c d e f := by
  rw [normalize_Tm_eq]
  simp only [List.filterMap_cons, List.filterMap_nil, h1, h2, h3, h4, h5, h6]

/-- Claim C5 witness: evaluating the `Tm` arm at the concrete identity-part
operands `(1, 0, 0, 1, 2, 3)`. -/
theorem claim5_witness :
    normalize_operation_with_font asStrDefault
      ⟨"Tm", [.number 1, .number 0, .number 0, .number 1, .number 2, .number 3]⟩
      none =
      if (1 : F32) = 1 ∧ (0 : F32) = 0 ∧ (0 : F32) = 0 ∧ (1 : F32) = 1 then
        Operation.MoveTextPosition 2 3
      else Operation.SetTextMatrixAndTextLineMatrix 1 0 0 1 2 3 :=
  claim5_text_matrix_simplification asStrDefault none _ _ _ _ _ _ 1 0 0 1 2 3
    rfl rfl rfl rfl rfl rfl

/-- Modelled from the spec: the intended Identity-H decoding, consuming the
byte string two bytes at a time as NON-overlapping big-endian 16-bit codes
(mapped codes emit their cmap entry, unmapped codes and an odd trailing byte
are dropped).  Present only to exhibit the divergence of the implementation,
whose `windows(2)` iteration produces overlapping codes. -/
def decodeIdentityHChunked (cmap : List (Nat × String)) : List Nat → String
  | b0 :: b1 :: rest =>
    (match cmap.lookup (b0 * 256 + b1) with
     | some s => s
     | none => "") ++ decodeIdentityHChunked cmap rest
  | _ => ""

/-- Claim C2: the Identity-H branch iterates `windows(2)` — overlapping
two-byte windows — not non-overlapping chunks, so interior bytes are used in
two character codes.  On the published example the two agree (`"AB"`), but on
the bytes `[0x00, 0x41, 0x00, 0x00]` with cmap `{0x4100 ↦ "X"}` the
implementation emits `"X"` from the overlapping window `[0x41, 0x00]`, where
non-overlapping consumption reads only the unmapped codes `0x0041, 0x0000`
and decodes to `""`. -/
theorem claim2_identity_h_overlap_bug :
    decode_string asStrDefault [0x00, 0x41, 0x00, 0x42]
      (some ⟨some ⟨BaseEncoding.IdentityH⟩, [(0x41, "A"), (0x42, "B")]⟩) =
      some "AB" ∧
    decode_string asStrDefault [0x00, 0x41, 0x00, 0x00]
      (some ⟨some ⟨BaseEncoding.IdentityH⟩, [(0x4100, "X")]⟩) = some "X" ∧
    decodeIdentityHChunked [(0x4100, "X")] [0x00, 0x41, 0x00, 0x00] = "" ∧
    decodeIdentityHChunked [(0x41, "A"), (0x42, "B")] [0x00, 0x41, 0x00, 0x42] =
      "AB" :=
  ⟨rfl, rfl, rfl, rfl⟩

/-- Claim C7: under a font whose encoding is not Identity-H, decoding never
fails and processes one byte at a time — a byte with a cmap entry contributes
the mapped fragment, a byte without one contributes the byte value
reinterpreted as a single character; concretely, with cmap `{0x80 ↦ "€"}`
byte `0x80` decodes to `"€"` and unmapped byte `0x41` decodes to `"A"`. -/
theorem claim7_simple_encoding_decoding (asStr : List Nat → Option String)
    (cmap : List (Nat × String)) (enc : BaseEncoding)
    (henc : enc ≠ BaseEncoding.IdentityH) :
    (∀ bytes : List Nat,
      decode_string asStr bytes (some ⟨some ⟨enc⟩, cmap⟩) =
        some (decodeSimple cmap bytes)) ∧
    (∀ (bytes : List Nat) (b : Nat),
      decodeSimple cmap (bytes ++ [b]) =
        match cmap.lookup b with
        | some s => decodeSimple cmap bytes ++ s
        | none => (decodeSimple cmap bytes).push (Char.ofNat b)) ∧
    decodeSimple [(0x80, "€")] [0x80] = "€" ∧
    decodeSimple [(0x80, "€")] [0x41] = "A" := by
  refine ⟨?_, ?_, rfl, rfl⟩
  · intro bytes
    cases enc
    case IdentityH => exact absurd rfl henc
    all_goals rfl
  · intro bytes b
    simp only [decodeSimple, List.foldl_append, List.foldl_cons, List.foldl_nil]

/-- Claim C7 witness: the general simple-encoding equation applied at the
concrete `WinAnsiEncoding` font. -/
theorem claim7_witness :
    decode_string asStrDefault [0x80]
      (some ⟨some ⟨BaseEncoding.WinAnsiEncoding⟩, [(0x80, "€")]⟩) =
      some (decodeSimple [(0x80, "€")] [0x80]) :=
  (claim7_simple_encoding_decoding asStrDefault [(0x80, "€")]
    BaseEncoding.WinAnsiEncoding (fun h => BaseEncoding.noConfusion h)).1 [0x80]

/-- Claim C8: each named-resource operator — `CS`, `cs`, `Do`, `gs`, `MP`,
`sh` — yields its typed variant exactly when its operand list is a single
name primitive, and `Unknown` for any other operand count or type. -/
theorem claim8_named_resource_operators (asStr : List Nat → Option String)
    (fnt : Option FontInfo) (ops : List Primitive) :
    (normalize_operation_with_font asStr ⟨"CS", ops⟩ fnt =
      match ops with
      | [.name n] => Operation.SetColorSpaceForStrokingOperations n
      | _ => Operation.Unknown "CS" ops) ∧
    (normalize_operation_with_font asStr ⟨"cs", ops⟩ fnt =
      match ops with
      | [.name n] => Operation.SetColorSpaceForNonStrokingOperations n
      | _ => Operation.Unknown "cs" ops) ∧
    (normalize_operation_with_font asStr ⟨"Do", ops⟩ fnt =
      match ops with
      | [.name n] => Operation.InvokeNamedXObject n
      | _ => Operation.Unknown "Do" ops) ∧
    (normalize_operation_with_font asStr ⟨"gs", ops⟩ fnt =
      match ops with
      | [.name n] => Operation.SetParametersFromGraphicsStateParameterDictionary n
      | _ => Operation.Unknown "gs" ops) ∧
    (normalize_operation_with_font asStr ⟨"MP", ops⟩ fnt =
      match ops with
      | [.name n] => Operation.DefineMarkedContentPoint n
      | _ => Operation.Unknown "MP" ops) ∧
    (normalize_operation_with_font asStr ⟨"sh", ops⟩ fnt =
      match ops with
      | [.name n] => Operation.PaintAreaDefinedByShadingPattern n
      | _ => Operation.Unknown "sh" ops) :=
  ⟨rfl, rfl, rfl, rfl, rfl, rfl⟩

theorem splitLast_concat (ps : List Primitive) (x : Primitive) :
    splitLast (ps ++ [x]) = some (ps, x) := by
  induction ps with
  | nil => rfl
  | cons a ps ih =>
    cases ps with
    | nil => rfl
    | cons b t =>
      show (splitLast ((b :: t) ++ [x])).map (fun p => (a :: p.1, p.2)) =
        some (a :: b :: t, x)
      rw [ih]
      rfl

theorem splitLast_eq_getLast (ps : List Primitive) :
    splitLast ps = (ps.getLast?).map fun x => (ps.dropLast, x) := by
  induction ps with
  | nil => rfl
  | cons a ps ih =>
    cases ps with
    | nil => rfl
    | cons b t =>
      show (splitLast (b :: t)).map (fun p => (a :: p.1, p.2)) = _
      rw [ih]
      cases hl : (b :: t).getLast? with
      | none => simp at hl
      | some x =>
        have hgl : (a :: b :: t).getLast? = some x := by
          rw [List.getLast?_cons_cons, hl]
        rw [hgl]
        rfl

theorem normalize_SCN_eq (asStr : List Nat → Option String) (fnt : Option FontInfo)
    (ops : List Primitive) :
    normalize_operation_with_font asStr ⟨"SCN", ops⟩ fnt =
      match splitLast ops with
      | some (primitive_cs, .name n) =>
        if (primitive_cs.filterMap Primitive.try_to_f).length = primitive_cs.length then
          Operation.SetColorForStrokingOperationsICCBasedAndSpecialColorSpaces
            (primitive_cs.filterMap Primitive.try_to_f) (some n)
        else Operation.Unknown "SCN" ops
      | _ =>
        if (ops.filterMap Primitive.try_to_f).length = ops.length then
          Operation.SetColorForStrokingOperationsICCBasedAndSpecialColorSpaces
            (ops.filterMap Primitive.try_to_f) none
        else Operation.Unknown "SCN" ops := rfl

theorem normalize_scn_eq (asStr : List Nat → Option String) (fnt : Option FontInfo)
    (ops : List Primitive) :
    normalize_operation_with_font asStr ⟨"scn", ops⟩ fnt =
      match splitLast ops with
      | some (primitive_cs, .name n) =>
        if (primitive_cs.filterMap Primitive.try_to_f).length = primitive_cs.length then
          Operation.SetColorForNonStrokingOperationsICCBasedAndSpecialColorSpaces
            (primitive_cs.filterMap Primitive.try_to_f) (some n)
        else Operation.Unknown "scn" ops
      | _ =>
        if (ops.filterMap Primitive.try_to_f).length = ops.length then
          Operation.SetColorForNonStrokingOperationsICCBasedAndSpecialColorSpaces
            (ops.filterMap Primitive.try_to_f) none
        else Operation.Unknown "scn" ops := rfl

/-- Claim C6: for `SCN` and `scn`, a final name operand becomes the
color-space resource name with the remaining operands coerced as components —
`Unknown` when any of them fails coercion; with no final name operand, all
operands are components — `Unknown` when any fails coercion.  (The filtered
length equals the raw length exactly when every operand coerces.) -/
theorem claim6_icc_color_operators (asStr : List Nat → Option String)
    (fnt : Option FontInfo) :
    (∀ (ps : List Primitive) (nm : String),
      normalize_operation_with_font asStr ⟨"SCN", ps ++ [.name nm]⟩ fnt =
        if (ps.filterMap Primitive.try_to_f).length = ps.length then
          Operation.SetColorForStrokingOperationsICCBasedAndSpecialColorSpaces
            (ps.filterMap Primitive.try_to_f) (some nm)
        else Operation.Unknown "SCN" (ps ++ [.name nm])) ∧
    (∀ ps : List Primitive, (∀ nm : String, ps.getLast? ≠ some (.name nm)) →
      normalize_operation_with_font asStr ⟨"SCN", ps⟩ fnt =
        if (ps.filterMap Primitive.try_to_f).length = ps.length then
          Operation.SetColorForStrokingOperationsICCBasedAndSpecialColorSpaces
            (ps.filterMap Primitive.try_to_f) none
        else Operation.Unknown "SCN" ps) ∧
    (∀ (ps : List Primitive) (nm : String),
      normalize_operation_with_font asStr ⟨"scn", ps ++ [.name nm]⟩ fnt =
        if (ps.filterMap Primitive.try_to_f).length = ps.length then
          Operation.SetColorForNonStrokingOperationsICCBasedAndSpecialColorSpaces
            (ps.filterMap Primitive.try_to_f) (some nm)
        else Operation.Unknown "scn" (ps ++ [.name nm])) ∧
    (∀ ps : List Primitive, (∀ nm : String, ps.getLast? ≠ some (.name nm)) →
      normalize_operation_with_font asStr ⟨"scn", ps⟩ fnt =
        if (ps.filterMap Primitive.try_to_f).length = ps.length then
          Operation.SetColorForNonStrokingOperationsICCBasedAndSpecialColorSpaces
            (ps.filterMap Primitive.try_to_f) none
        else Operation.Unknown "scn" ps) := by
  refine ⟨?_, ?_, ?_, ?_⟩
  · intro ps nm
    rw [normalize_SCN_eq, splitLast_concat]
  · intro ps h
    rw [normalize_SCN_eq, splitLast_eq_getLast]
    cases hl : ps.getLast? with
    | none => rfl
    | some p =>
      cases p
      case name nm => exact absurd hl (h nm)
      all_goals rfl
  · intro ps nm
    rw [normalize_scn_eq, splitLast_concat]
  · intro ps h
    rw [normalize_scn_eq, splitLast_eq_getLast]
    cases hl : ps.getLast? with
    | none => rfl
    | some p =>
      cases p
      case name nm => exact absurd hl (h nm)
      all_goals rfl

/-- Claim C6 witness: `SCN` with the single numeric operand `1` (no trailing
name), via the second clause of the claim theorem. -/
theorem claim6_witness :
    normalize_operation_with_font asStrDefault ⟨"SCN", [.integer 1]⟩ none =
      if (([.integer 1] : List Primitive).filterMap Primitive.try_to_f).length =
          ([.integer 1] : List Primitive).length then
        Operation.SetColorForStrokingOperationsICCBasedAndSpecialColorSpaces
          (([.integer 1] : List Primitive).filterMap Primitive.try_to_f) none
      else Operation.Unknown "SCN" [.integer 1] :=
  (claim6_icc_color_operators asStrDefault none).2.1 [.integer 1]
    (fun nm h => by simp at h)

theorem windowsList_two_length {xs : List Nat} {w : List Nat}
    (hw : w ∈ windowsList 2 xs) : w.length = 2 := by
  simp only [windowsList, List.mem_map, List.mem_range] at hw
  obtain ⟨i, hi, rfl⟩ := hw
  simp only [List.length_take, List.length_drop]
  omega

theorem decodeIdentityH_loop_total (cmap : List (Nat × String)) :
    ∀ ws : List (List Nat), (∀ w ∈ ws, w.length = 2) → ∀ init : String,
      ∃ s, ws.foldlM
        (fun out w =>
          (beU16 w).map fun cp =>
            match cmap.lookup cp with
            | some s => out ++ s
            | none => out) init = some s := by
  intro ws
  induction ws with
  | nil => exact fun _ init => ⟨init, rfl⟩
  | cons w ws ih =>
    intro hw init
    obtain ⟨b0, b1, rfl⟩ := List.length_eq_two.mp (hw w (List.mem_cons_self w ws))
    obtain ⟨s, hs⟩ := ih (fun v hv => hw v (List.mem_cons_of_mem _ hv))
      (match cmap.lookup (b0 * 256 + b1) with
       | some t => init ++ t
       | none => init)
    exact ⟨s, hs⟩

/-- Claim C10: decoding under an Identity-H encoding is total — the fallible
2-byte slice conversion always succeeds because every window has length
exactly two, so the decode always returns a value — and any input of fewer
than two bytes (empty, or a single odd byte) decodes to the empty string
rather than an error. -/
theorem claim10_identity_h_total (asStr : List Nat → Option String)
    (cmap : List (Nat × String)) (bytes : List Nat) :
    (∃ s, decode_string asStr bytes (some ⟨some ⟨BaseEncoding.IdentityH⟩, cmap⟩) =
      some s) ∧
    (bytes.length < 2 →
      decode_string asStr bytes (some ⟨some ⟨BaseEncoding.IdentityH⟩, cmap⟩) =
        some "") := by
  constructor
  · exact decodeIdentityH_loop_total cmap (windowsList 2 bytes)
      (fun w hw => windowsList_two_length hw) ""
  · intro hlen
    show decodeIdentityH cmap bytes = some ""
    unfold decodeIdentityH windowsList
    have hz : bytes.length + 1 - 2 = 0 := by omega
    rw [hz]
    rfl

/-- Claim C10 witness: a single odd byte under Identity-H decodes to the
empty string. -/
theorem claim10_witness :
    decode_string asStrDefault [5]
      (some ⟨some ⟨BaseEncoding.IdentityH⟩, []⟩) = some "" :=
  (claim10_identity_h_total asStrDefault [] [5]).2 (by decide)

/-- Claim C4: classification is total — the embedding is a total function, so
every (operator, operand list, optional font) input classifies to some
`Operation` — and every `Unknown` result carries exactly the original
operator name and the original untouched operand list. -/
theorem claim4_unknown_preservation (asStr : List Nat → Option String)
    (op : PdfOperation) (fnt : Option FontInfo) (u : String) (us : List Primitive)
    (h : normalize_operation_with_font asStr op fnt = Operation.Unknown u us) :
    u = op.operator ∧ us = op.operands := by
  obtain ⟨operator, operands⟩ := op
  unfold normalize_operation_with_font at h
  dsimp only at h
  repeat' split at h
  all_goals
    first
    | exact Operation.noConfusion h
    | (injection h with h1 h2; exact ⟨h1.symm, h2.symm⟩)

/-- Claim C4 witness: the unrecognized operator `zz` with operands `[1, "x"]`
classifies to `Unknown` carrying exactly those fields. -/
theorem claim4_witness :
    "zz" = (PdfOperation.mk "zz" [.integer 1, .string [120]]).operator ∧
    [Primitive.integer 1, Primitive.string [120]] =
      (PdfOperation.mk "zz" [.integer 1, .string [120]]).operands :=
  claim4_unknown_preservation asStrDefault ⟨"zz", [.integer 1, .string [120]]⟩ none
    "zz" [.integer 1, .string [120]] rfl

end TypedPdf
